import Mathlib

/-!
A verification development for the tickisinator repository: a shallow
embedding of the ISIN identifier math (src/isin.ts), the SQLite-backed
identifier store (src/db.ts), and the FMP API client (src/apis/fmp.ts),
with theorems settling the specification claims about them.

JavaScript strings are modeled as `List Char` (JS string comparison on the
ASCII range coincides with code-unit comparison, i.e. `Char.toNat`
comparison).  Fallible functions (functions that `throw`) are modeled as
`Except`-valued functions whose error is the thrown message.
-/

namespace Tickisinator

/-! ## Identifier math: embedding of src/isin.ts -/

/-- The check `char >= "A" && char <= "Z"` from `computeIsinCheckDigit`
(JS compares code units, so this is a `toNat` range check). -/
def isUpperAZ (c : Char) : Bool := 65 ≤ c.toNat && c.toNat ≤ 90

/-- The check `char >= "0" && char <= "9"`. -/
def isDigit09 (c : Char) : Bool := 48 ≤ c.toNat && c.toNat ≤ 57

/-- The numeral a letter is mapped to: `char.charCodeAt(0) - 65 + 10`. -/
def letterVal (c : Char) : Nat := c.toNat - 65 + 10

/-- The message of the error thrown by `computeIsinCheckDigit` for a
character that is neither an ASCII digit nor an uppercase ASCII letter. -/
def invalidCharMsg (c : Char) : String :=
  "Invalid character in ISIN: " ++ String.mk [c]

/-- The message of the error thrown by `computeIsinCheckDigit` when its
input is not exactly 11 characters. -/
def lengthMsg : String := "Base must be exactly 11 characters (country code + NSIN)"

/-- The character-expansion step of `computeIsinCheckDigit`: each letter
becomes the two decimal digits of its value 10–35, each digit stays itself,
and the first invalid character raises the `Invalid character` error.
(The source maps each character to its numeral string and joins; since
letter values lie in 10–35 the numeral string of a letter is exactly its
two decimal digits.) -/
def expandChars : List Char → Except String (List Nat)
  | [] => .ok []
  | c :: cs =>
    if isUpperAZ c then
      (expandChars cs).map (fun ds => letterVal c / 10 :: letterVal c % 10 :: ds)
    else if isDigit09 c then
      (expandChars cs).map (fun ds => (c.toNat - 48) :: ds)
    else .error (invalidCharMsg c)

/-- The per-digit step of the Luhn loop in `computeIsinCheckDigit`:
at an odd position-from-the-right the digit is doubled and, if above 9,
replaced by the sum of its two decimal digits. -/
def luhnTransform (pos d : Nat) : Nat :=
  if pos % 2 = 1 then
    let d2 := d * 2
    if d2 > 9 then d2 / 10 + d2 % 10 else d2
  else d

/-- The summation loop of `computeIsinCheckDigit`, iterating over the
digits from the right-hand end (the source iterates the array from the
last index down to 0 with `positionFromRight = digits.length - i`); here
the reversed digit list is traversed with the position counter starting
at `pos`. -/
def luhnSumAux : Nat → List Nat → Nat
  | _, [] => 0
  | pos, d :: ds => luhnTransform pos d + luhnSumAux (pos + 1) ds

/-- The full Luhn sum of `computeIsinCheckDigit`: rightmost digit has
position 1 (position 0 is reserved for the check digit itself). -/
def luhnSum (digits : List Nat) : Nat := luhnSumAux 1 digits.reverse

/-- Embedding of `computeIsinCheckDigit` (src/isin.ts:27-74). -/
def computeIsinCheckDigit (base : List Char) : Except String Nat :=
  if base.length ≠ 11 then .error lengthMsg
  else (expandChars base).map (fun ds => (10 - luhnSum ds % 10) % 10)

/-- Recognizes the `Invalid character in ISIN:` error messages of
`computeIsinCheckDigit` (as opposed to its length error). -/
def isInvalidCharacterError (e : String) : Bool :=
  e.data.take 26 == "Invalid character in ISIN:".data

/-! ### Specification-side statement of the check-digit algorithm.
These definitions follow the spec's wording (spec.md §4.1), to be compared
with the embedding of the source above; they are used only by the claim
about `computeIsinCheckDigit` matching the spec's algorithm. -/

/-- Follows the spec's words: a digit maps to its own numeral, a letter
`A`–`Z` to the numeral 10–35 (two decimal digits). -/
def specCharNumerals (c : Char) : List Nat :=
  if isUpperAZ c then [(c.toNat - 65 + 10) / 10, (c.toNat - 65 + 10) % 10]
  else [c.toNat - 48]

/-- Follows the spec's words: concatenate the numerals, in order, into one
long digit sequence. -/
def specExpand (base : List Char) : List Nat :=
  (base.map specCharNumerals).flatten

/-- Follows the spec's words: double the value; if the doubled value
exceeds 9, replace it with the sum of its two digits. -/
def specDouble (d : Nat) : Nat :=
  if d * 2 > 9 then d * 2 / 10 + d * 2 % 10 else d * 2

/-- Follows the spec's words: index the digits from the right-hand end,
1-based (position 0 would be the check digit, excluded), double every
digit at an odd position, and sum everything. -/
def specLuhnSum (digits : List Nat) : Nat :=
  ((List.range digits.length).map (fun j =>
    if (j + 1) % 2 = 1 then specDouble (digits.reverse.getD j 0)
    else digits.reverse.getD j 0)).sum

/-- Follows the spec's words: check digit = (10 − (sum mod 10)) mod 10. -/
def specCheckDigit (base : List Char) : Nat :=
  (10 - specLuhnSum (specExpand base) % 10) % 10

/-! ### validateIsin and cusipToIsin (src/isin.ts) -/

/-- Error message for an ISIN of the wrong length. -/
def lenMsg12 : String := "ISIN must be exactly 12 characters"

/-- Error message for a country code that is not two uppercase letters. -/
def ccMsg : String := "ISIN must start with 2 uppercase letters (country code)"

/-- Error message for a non-numeric trailing (check-digit) character. -/
def nanMsg : String := "Check digit must be a number"

/-- Error message for a check digit that does not match. -/
def badCheckMsg : String := "Invalid check digit"

/-- Embedding of the `IsinValidationResult` interface. -/
structure IsinValidationResult where
  valid : Bool
  error : Option String
deriving DecidableEq

/-- The country-code test `/^[A-Z]{2}$/.test(isin.substring(0, 2))`. -/
def countryCodeOk (isin : List Char) : Bool :=
  match isin with
  | a :: b :: _ => isUpperAZ a && isUpperAZ b
  | _ => false

/-- `parseInt(c, 10)` on a single character: an ASCII digit parses to its
value, anything else is `NaN` (modeled as `none`). -/
def parseDigitChar (c : Char) : Option Nat :=
  if isDigit09 c then some (c.toNat - 48) else none

/-- Embedding of `validateIsin` (src/isin.ts:87-133).  The source never
throws: the check-digit computation's exceptions are caught and returned
as the error message. -/
def validateIsin (isin : List Char) : IsinValidationResult :=
  if isin.length ≠ 12 then ⟨false, some lenMsg12⟩
  else if countryCodeOk isin = false then ⟨false, some ccMsg⟩
  else
    match parseDigitChar (isin.getD 11 ' ') with
    | none => ⟨false, some nanMsg⟩
    | some provided =>
      match computeIsinCheckDigit (isin.take 11) with
      | .ok computed => if computed ≠ provided then ⟨false, some badCheckMsg⟩ else ⟨true, none⟩
      | .error e => ⟨false, some e⟩

/-- Error message for a CUSIP of the wrong length. -/
def cusipLenMsg : String := "CUSIP must be exactly 9 characters"

/-- Error message for a CUSIP with non-alphanumeric characters. -/
def cusipCharsMsg : String := "CUSIP contains invalid characters"

/-- Lowercase ASCII letter test (code-unit range 97–122). -/
def isLowerAZ (c : Char) : Bool := 97 ≤ c.toNat && c.toNat ≤ 122

/-- The per-character test of the regex `/^[A-Z0-9]+$/i`. -/
def isAlnumCI (c : Char) : Bool := isUpperAZ c || isLowerAZ c || isDigit09 c

/-- Embedding of `cusipToIsin` (src/isin.ts:143-165).  `.toUpperCase()`
is `Char.toUpper` per character (identical on ASCII); the appended
`checkDigit.toString()` is the decimal numeral `Nat.repr`. -/
def cusipToIsin (cusip : List Char) : Except String (List Char) :=
  if cusip.length ≠ 9 then .error cusipLenMsg
  else if cusip.all isAlnumCI = false then .error cusipCharsMsg
  else
    let base := 'U' :: 'S' :: cusip.map Char.toUpper
    (computeIsinCheckDigit base).map (fun d => base ++ (Nat.repr d).data)

/-! ## Persistent store: embedding of src/db.ts

The SQLite tables are modeled as lists of rows in table order; the
`AUTOINCREMENT` rowid of the `securities` table is modeled by the
`nextId` counter.  `insertSecurity` takes the wall-clock timestamp
(`Date.now() / 1000` in the source) as an explicit argument. -/

/-- Embedding of the `SecurityData` input interface. -/
structure SecurityData where
  name : String
  ticker : String
  exchange : String
  isin : Option String := none
  cusip : Option String := none
  cik : Option String := none
  figi : Option String := none
  source : String
  security_type : Option String := none
  market_sector : Option String := none
deriving DecidableEq

/-- A row of the `securities` table. -/
structure SecurityRow where
  id : Nat
  name : String
  security_type : Option String
  market_sector : Option String
  created_at : Nat
  updated_at : Nat
deriving DecidableEq

/-- A row of the `identifiers_ticker` table (primary key: ticker, exchange). -/
structure TickerRow where
  security_id : Nat
  ticker : String
  exchange : String
  source : String
  fetched_at : Nat
deriving DecidableEq

/-- A row of the `identifiers_isin` table (primary key: isin). -/
structure IsinRow where
  security_id : Nat
  isin : String
  source : String
  fetched_at : Nat
deriving DecidableEq

/-- A row of the `identifiers_cusip` table (primary key: cusip). -/
structure CusipRow where
  security_id : Nat
  cusip : String
  source : String
  fetched_at : Nat
deriving DecidableEq

/-- A row of the `identifiers_cik` table (primary key: cik). -/
structure CikRow where
  security_id : Nat
  cik : String
  source : String
  fetched_at : Nat
deriving DecidableEq

/-- The whole database state. -/
structure Store where
  securities : List SecurityRow
  tickers : List TickerRow
  isins : List IsinRow
  cusips : List CusipRow
  ciks : List CikRow
  nextId : Nat
deriving DecidableEq

/-- A fresh database, as produced by `initDatabase` (SQLite rowids start
at 1). -/
def emptyStore : Store := ⟨[], [], [], [], [], 1⟩

/-- JavaScript truthiness of an optional string field: `undefined` and
the empty string are falsy. -/
def optTruthy (o : Option String) : Bool :=
  match o with
  | none => false
  | some v => !(v == "")

/-- The JavaScript `x || null` coalescing applied to an optional string:
an absent or empty value becomes null. -/
def jsOr (o : Option String) : Option String :=
  match o with
  | some v => if v == "" then none else some v
  | none => none

/-- The probe `SELECT security_id FROM identifiers_ticker WHERE ticker = ?
AND exchange = ?` (the source's `.get` returns the first matching row). -/
def findTickerRow (rows : List TickerRow) (t e : String) : Option TickerRow :=
  rows.find? (fun r => r.ticker == t && r.exchange == e)

/-- The probe `SELECT security_id FROM identifiers_isin WHERE isin = ?`. -/
def findIsinRow (rows : List IsinRow) (v : String) : Option IsinRow :=
  rows.find? (fun r => r.isin == v)

/-- The probe `SELECT security_id FROM identifiers_cusip WHERE cusip = ?`. -/
def findCusipRow (rows : List CusipRow) (v : String) : Option CusipRow :=
  rows.find? (fun r => r.cusip == v)

/-- The resolution sequence of `insertSecurity`: probe ticker+exchange,
then ISIN (if truthy), then CUSIP (if truthy).  The JavaScript
`securityId: number | undefined` with its `!securityId` falsiness checks
is modeled as a `Nat` with 0 for `undefined` — observationally identical,
since the source only tests `!securityId` (true for both `undefined` and
`0`) and real rowids are never 0. -/
def resolveSecurityId (db : Store) (s : SecurityData) : Nat :=
  let sid0 : Nat :=
    match findTickerRow db.tickers s.ticker s.exchange with
    | some r => r.security_id
    | none => 0
  let sid1 : Nat :=
    if sid0 == 0 && optTruthy s.isin then
      match findIsinRow db.isins (s.isin.getD "") with
      | some r => r.security_id
      | none => sid0
    else sid0
  let sid2 : Nat :=
    if sid1 == 0 && optTruthy s.cusip then
      match findCusipRow db.cusips (s.cusip.getD "") with
      | some r => r.security_id
      | none => sid1
    else sid1
  sid2

/-- SQLite `INSERT ... ON CONFLICT(key) DO UPDATE` on a table: if some
row matches the conflict key, update the matching rows in place,
otherwise append the fresh row. -/
def upsertRows {ρ : Type} (key : ρ → Bool) (upd : ρ → ρ) (fresh : ρ)
    (rows : List ρ) : List ρ :=
  if rows.any key then rows.map (fun r => if key r then upd r else r)
  else rows ++ [fresh]

/-- The `identifiers_ticker` upsert of `insertSecurity` (conflict key:
ticker, exchange; updates security_id, source, fetched_at). -/
def tickerUpsert (rows : List TickerRow) (sid : Nat) (t e src : String) (ts : Nat) :
    List TickerRow :=
  upsertRows (fun r => r.ticker == t && r.exchange == e)
    (fun r => { r with security_id := sid, source := src, fetched_at := ts })
    ⟨sid, t, e, src, ts⟩ rows

/-- The `identifiers_isin` upsert of `insertSecurity`. -/
def isinUpsert (rows : List IsinRow) (sid : Nat) (v src : String) (ts : Nat) :
    List IsinRow :=
  upsertRows (fun r => r.isin == v)
    (fun r => { r with security_id := sid, source := src, fetched_at := ts })
    ⟨sid, v, src, ts⟩ rows

/-- The `identifiers_cusip` upsert of `insertSecurity`. -/
def cusipUpsert (rows : List CusipRow) (sid : Nat) (v src : String) (ts : Nat) :
    List CusipRow :=
  upsertRows (fun r => r.cusip == v)
    (fun r => { r with security_id := sid, source := src, fetched_at := ts })
    ⟨sid, v, src, ts⟩ rows

/-- The `identifiers_cik` upsert of `insertSecurity`. -/
def cikUpsert (rows : List CikRow) (sid : Nat) (v src : String) (ts : Nat) :
    List CikRow :=
  upsertRows (fun r => r.cik == v)
    (fun r => { r with security_id := sid, source := src, fetched_at := ts })
    ⟨sid, v, src, ts⟩ rows

/-- Embedding of `insertSecurity` (src/db.ts): resolve an existing
security by ticker+exchange, ISIN, then CUSIP; create or update the
securities row; upsert every supplied identifier; return the resolved
security id together with the new store. -/
def insertSecurity (db : Store) (s : SecurityData) (ts : Nat) : Store × Nat :=
  let resolved := resolveSecurityId db s
  let secs : List SecurityRow :=
    if resolved == 0 then
      db.securities ++ [⟨db.nextId, s.name, jsOr s.security_type, jsOr s.market_sector, ts, ts⟩]
    else
      db.securities.map (fun r =>
        if r.id == resolved then
          { r with name := s.name, security_type := jsOr s.security_type,
                   market_sector := jsOr s.market_sector, updated_at := ts }
        else r)
  let sid : Nat := if resolved == 0 then db.nextId else resolved
  let nid : Nat := if resolved == 0 then db.nextId + 1 else db.nextId
  let tickers := tickerUpsert db.tickers sid s.ticker s.exchange s.source ts
  let isins :=
    if optTruthy s.isin then isinUpsert db.isins sid (s.isin.getD "") s.source ts
    else db.isins
  let cusips :=
    if optTruthy s.cusip then cusipUpsert db.cusips sid (s.cusip.getD "") s.source ts
    else db.cusips
  let ciks :=
    if optTruthy s.cik then cikUpsert db.ciks sid (s.cik.getD "") s.source ts
    else db.ciks
  (⟨secs, tickers, isins, cusips, ciks, nid⟩, sid)

/-- The result record shape shared by the three lookups. -/
structure SecurityResult where
  id : Nat
  name : String
  ticker : Option String
  exchange : Option String
  isin : Option String
  cusip : Option String
  cik : Option String
  security_type : Option String
  market_sector : Option String
  source : String
  fetched_at : Nat
deriving DecidableEq

/-- The join pipeline of `lookupByTicker`: ticker rows satisfying the
WHERE clause, inner-joined to `securities`, left-joined to the sibling
identifier tables (first matching row each, in nested-loop order). -/
def tickerResultRows (db : Store) (p : TickerRow → Bool) : List SecurityResult :=
  (db.tickers.filter p).filterMap (fun tr =>
    (db.securities.find? (fun sr => sr.id == tr.security_id)).map (fun sr =>
      { id := sr.id, name := sr.name,
        ticker := some tr.ticker, exchange := some tr.exchange,
        isin := jsOr ((db.isins.find? (fun r => r.security_id == sr.id)).map (fun r => r.isin)),
        cusip := jsOr ((db.cusips.find? (fun r => r.security_id == sr.id)).map (fun r => r.cusip)),
        cik := jsOr ((db.ciks.find? (fun r => r.security_id == sr.id)).map (fun r => r.cik)),
        security_type := jsOr sr.security_type,
        market_sector := jsOr sr.market_sector,
        source := "db", fetched_at := tr.fetched_at }))

/-- Embedding of `lookupByTicker` (src/db.ts): with a truthy exchange the
WHERE clause is `ticker = ? AND exchange = ?`, otherwise only
`ticker = ?`; `.get` returns the first result row or null. -/
def lookupByTicker (db : Store) (t : String) (exchange : Option String) :
    Option SecurityResult :=
  if optTruthy exchange then
    (tickerResultRows db (fun r => r.ticker == t && r.exchange == exchange.getD "")).head?
  else
    (tickerResultRows db (fun r => r.ticker == t)).head?

/-- Embedding of `lookupByIsin` (src/db.ts). -/
def lookupByIsin (db : Store) (v : String) : Option SecurityResult :=
  ((db.isins.filter (fun r => r.isin == v)).filterMap (fun ir =>
    (db.securities.find? (fun sr => sr.id == ir.security_id)).map (fun sr =>
      { id := sr.id, name := sr.name,
        ticker := jsOr ((db.tickers.find? (fun r => r.security_id == sr.id)).map (fun r => r.ticker)),
        exchange := jsOr ((db.tickers.find? (fun r => r.security_id == sr.id)).map (fun r => r.exchange)),
        isin := some ir.isin,
        cusip := jsOr ((db.cusips.find? (fun r => r.security_id == sr.id)).map (fun r => r.cusip)),
        cik := jsOr ((db.ciks.find? (fun r => r.security_id == sr.id)).map (fun r => r.cik)),
        security_type := jsOr sr.security_type,
        market_sector := jsOr sr.market_sector,
        source := "db", fetched_at := ir.fetched_at }))).head?

/-- Embedding of `lookupByCusip` (src/db.ts). -/
def lookupByCusip (db : Store) (v : String) : Option SecurityResult :=
  ((db.cusips.filter (fun r => r.cusip == v)).filterMap (fun cr =>
    (db.securities.find? (fun sr => sr.id == cr.security_id)).map (fun sr =>
      { id := sr.id, name := sr.name,
        ticker := jsOr ((db.tickers.find? (fun r => r.security_id == sr.id)).map (fun r => r.ticker)),
        exchange := jsOr ((db.tickers.find? (fun r => r.security_id == sr.id)).map (fun r => r.exchange)),
        isin := jsOr ((db.isins.find? (fun r => r.security_id == sr.id)).map (fun r => r.isin)),
        cusip := some cr.cusip,
        cik := jsOr ((db.ciks.find? (fun r => r.security_id == sr.id)).map (fun r => r.cik)),
        security_type := jsOr sr.security_type,
        market_sector := jsOr sr.market_sector,
        source := "db", fetched_at := cr.fetched_at }))).head?

/-- The input record of the end-to-end claim (the source obtains such a
record from the external resolver; the provenance tag is immaterial to
the claim). -/
def aaplData : SecurityData :=
  { name := "Apple Inc.", ticker := "AAPL", exchange := "NASDAQ",
    isin := some "US0378331005", cusip := some "037833100", source := "fmp" }

/-- First upsert of the in-place-update counterexample: ticker A on
exchange E with CUSIP C. -/
def cexS1 : SecurityData :=
  { name := "One", ticker := "A", exchange := "E", cusip := some "C", source := "src1" }

/-- Second upsert: a different ticker B on exchange E, no CUSIP. -/
def cexS2 : SecurityData :=
  { name := "Two", ticker := "B", exchange := "E", source := "src2" }

/-- Third upsert: ticker B again, now also carrying CUSIP C. -/
def cexS3 : SecurityData :=
  { name := "Two", ticker := "B", exchange := "E", cusip := some "C", source := "src3" }

/-- Store after the first counterexample upsert. -/
def cexDb1 : Store := (insertSecurity emptyStore cexS1 1).1

/-- Store after the second counterexample upsert. -/
def cexDb2 : Store := (insertSecurity cexDb1 cexS2 2).1

/-- Store after the third counterexample upsert. -/
def cexDb3 : Store := (insertSecurity cexDb2 cexS3 3).1

/-- A store holding one fully-identified security, for concrete witnesses. -/
def baseDb : Store := (insertSecurity emptyStore aaplData 1).1

/-- A query that misses on ticker but hits on ISIN. -/
def wIsinQuery : SecurityData :=
  { name := "Apple Inc.", ticker := "ZZZZ", exchange := "NASDAQ",
    isin := some "US0378331005", source := "w" }

/-- A query that misses on ticker, has no ISIN, and hits on CUSIP. -/
def wCusipQuery : SecurityData :=
  { name := "Apple Inc.", ticker := "YYYY", exchange := "NASDAQ",
    cusip := some "037833100", source := "w" }

/-- A query with no matching identifier at all. -/
def wNewQuery : SecurityData :=
  { name := "New Co", ticker := "NEWT", exchange := "X", source := "w" }

/-- An input carrying all four identifier kinds, for concrete witnesses. -/
def wAllIds : SecurityData :=
  { name := "W", ticker := "W", exchange := "X", isin := some "WI",
    cusip := some "WC", cik := some "WK", source := "wsrc" }

/-- A securities row with its two timestamp fields cleared: two rows
agree on `eraseSecurityTs` exactly when they agree on every
non-timestamp field. -/
def eraseSecurityTs (r : SecurityRow) : SecurityRow :=
  { r with created_at := 0, updated_at := 0 }

/-- A ticker row with its timestamp field cleared. -/
def eraseTickerTs (r : TickerRow) : TickerRow := { r with fetched_at := 0 }

/-- An ISIN row with its timestamp field cleared. -/
def eraseIsinTs (r : IsinRow) : IsinRow := { r with fetched_at := 0 }

/-- A CUSIP row with its timestamp field cleared. -/
def eraseCusipTs (r : CusipRow) : CusipRow := { r with fetched_at := 0 }

/-- A CIK row with its timestamp field cleared. -/
def eraseCikTs (r : CikRow) : CikRow := { r with fetched_at := 0 }

/-! ## FMP API client: embedding of src/apis/fmp.ts

The HTTP layer is a collaborator: `fetchTickerProfile` is embedded as a
function of the response it receives (status, status text, and parsed
JSON body — `none` for an unparseable body).  Thrown `FmpApiError` /
`FmpRateLimitError` instances become the two `FmpError` constructors. -/

/-- A JSON value, for the parsed response body. -/
inductive Json where
  | jnull
  | jbool (b : Bool)
  | jnum (n : Int)
  | jstr (s : String)
  | jarr (elems : List Json)
  | jobj (fields : List (String × Json))

/-- Property lookup on a JSON object. -/
def lookupJField (fields : List (String × Json)) (k : String) : Option Json :=
  (fields.find? (fun f => f.1 == k)).map (fun f => f.2)

/-- A string-valued property of a JSON object. -/
def getStrField (fields : List (String × Json)) (k : String) : Option String :=
  match lookupJField fields k with
  | some (.jstr s) => some s
  | _ => none

/-- JavaScript `typeof` of a parsed JSON value (arrays and null are
"object"). -/
def typeofJson (j : Json) : String :=
  match j with
  | .jnull => "object"
  | .jbool _ => "boolean"
  | .jnum _ => "number"
  | .jstr _ => "string"
  | .jarr _ => "object"
  | .jobj _ => "object"

/-- Boolean test that the pattern is an initial segment of the list. -/
def listIsPre : List Char → List Char → Bool
  | [], _ => true
  | _ :: _, [] => false
  | a :: as, b :: bs => a == b && listIsPre as bs

/-- JavaScript `String.prototype.includes`: the pattern occurs somewhere
in the string. -/
def subOccurs (pat : List Char) : List Char → Bool
  | [] => listIsPre pat []
  | c :: t => listIsPre pat (c :: t) || subOccurs pat t

/-- The HTTP response handed to `fetchTickerProfile` by `fetch`. -/
structure FmpResponse where
  status : Nat
  statusText : String
  body : Option Json

/-- `Response.ok`: status in the range 200–299. -/
def responseOk (r : FmpResponse) : Bool := 200 ≤ r.status && r.status < 300

/-- The two error classes of the FMP client: the generic `FmpApiError`
(message, optional status code) and the distinct `FmpRateLimitError`
subclass (whose status code is fixed at 429 by its constructor). -/
inductive FmpError where
  | apiError (message : String) (statusCode : Option Nat)
  | rateLimitError (message : String)
deriving DecidableEq

/-- The rate-limit message used by both rate-limit paths of the source. -/
def rateLimitMsg : String :=
  "Rate limit exceeded (250 requests/day). Please try again tomorrow or upgrade your plan."

/-- The body check for a 200-status rate-limit reply: a one-element array
whose element is an object with a string `message` property that contains
"rate limit". -/
def jsonRateLimitCheck (elems : List Json) : Bool :=
  match elems with
  | [.jobj fields] =>
    match lookupJField fields "message" with
    | some (.jstr m) => subOccurs "rate limit".data m.data
    | _ => false
  | _ => false

/-- The fields of a profile object (a non-object yields no fields, as
JavaScript property access on it yields `undefined`). -/
def profileFields (j : Json) : List (String × Json) :=
  match j with
  | .jobj fs => fs
  | _ => []

/-- The mapping of the first profile object to `SecurityData`
(src/apis/fmp.ts:151-165).  The source performs no runtime validation of
the cast; absent string fields are modeled as the empty string. -/
def profileToSecurityData (j : Json) : SecurityData :=
  let fs := profileFields j
  { ticker := (getStrField fs "symbol").getD "",
    name := (getStrField fs "companyName").getD "",
    exchange := (getStrField fs "exchange").getD "",
    source := "fmp",
    isin := getStrField fs "isin",
    cusip := getStrField fs "cusip",
    cik := getStrField fs "cik",
    market_sector := getStrField fs "sector" }

/-- The fixed part of the JSON-parse-failure message. -/
def parseErrorMsg : String := "Failed to parse JSON response"

/-- ASCII whitespace, for the `apiKey.trim()` check. -/
def isWsChar (c : Char) : Bool := c.toNat == 32 || (9 ≤ c.toNat && c.toNat ≤ 13)

/-- Strip leading whitespace. -/
def dropLeadingWs : List Char → List Char
  | [] => []
  | c :: t => if isWsChar c then dropLeadingWs t else c :: t

/-- JavaScript `String.prototype.trim` (restricted to ASCII whitespace). -/
def jsTrim (s : String) : List Char :=
  (dropLeadingWs (dropLeadingWs s.data.reverse).reverse)

/-- Embedding of `fetchTickerProfile` (src/apis/fmp.ts:62-166) as a
function of the received response. -/
def fetchTickerProfile (ticker apiKey : String) (r : FmpResponse) :
    Except FmpError SecurityData :=
  if jsTrim apiKey == [] then .error (.apiError "API key is required" none)
  else if responseOk r = false then
    if r.status == 429 then .error (.rateLimitError rateLimitMsg)
    else if r.status == 401 || r.status == 403 then
      let fs := match r.body with
        | some (.jobj fields) => fields
        | _ => []
      match getStrField fs "Error Message" with
      | some em =>
        if subOccurs "Invalid API KEY".data em.data then
          .error (.apiError "Invalid API KEY. Please check your FMP_API_KEY environment variable." (some 401))
        else .error (.apiError ("Authentication failed: HTTP " ++ toString r.status) (some r.status))
      | none => .error (.apiError ("Authentication failed: HTTP " ++ toString r.status) (some r.status))
    else if 500 ≤ r.status then
      .error (.apiError ("FMP server error: HTTP " ++ toString r.status ++ " " ++ r.statusText) (some r.status))
    else
      .error (.apiError ("HTTP " ++ toString r.status ++ ": " ++ r.statusText) (some r.status))
  else
    match r.body with
    | none => .error (.apiError parseErrorMsg none)
    | some j =>
      match j with
      | .jarr elems =>
        if jsonRateLimitCheck elems then .error (.rateLimitError rateLimitMsg)
        else
          match elems with
          | [] => .error (.apiError ("Ticker not found: " ++ ticker) (some 404))
          | e :: _ => .ok (profileToSecurityData e)
      | _ => .error (.apiError ("Invalid response format: expected array, got " ++ typeofJson j) none)

/-! ## Lemmas about the identifier math -/

theorem luhnSumAux_eq_range (l : List Nat) :
    ∀ k, luhnSumAux k l =
      ((List.range l.length).map (fun j => luhnTransform (j + k) (l.getD j 0))).sum := by
  induction l with
  | nil => intro k; simp [luhnSumAux]
  | cons d ds ih =>
    intro k
    rw [List.length_cons, List.range_succ_eq_map, List.map_cons, List.map_map,
      List.sum_cons, luhnSumAux, ih (k + 1)]
    congr 1
    · simp
    · apply congrArg List.sum
      apply List.map_congr_left
      intro j _
      simp only [Function.comp_apply, List.getD_cons_succ]
      congr 1
      omega

theorem luhnSum_eq_specLuhnSum (ds : List Nat) : luhnSum ds = specLuhnSum ds := by
  rw [luhnSum, luhnSumAux_eq_range, List.length_reverse]
  rfl

theorem expandChars_ok (l : List Char)
    (h : ∀ c ∈ l, (isUpperAZ c || isDigit09 c) = true) :
    expandChars l = .ok (specExpand l) := by
  induction l with
  | nil => rfl
  | cons c cs ih =>
    have hc := h c (List.mem_cons_self c cs)
    have ih' := ih (fun x hx => h x (List.mem_cons_of_mem c hx))
    by_cases hu : isUpperAZ c = true
    · simp [expandChars, hu, ih', Except.map, specExpand, specCharNumerals, letterVal]
    · have hd : isDigit09 c = true := by
        rcases Bool.or_eq_true_iff.mp hc with h1 | h2
        · exact absurd h1 hu
        · exact h2
      simp [expandChars, hu, hd, ih', Except.map, specExpand, specCharNumerals]

/-- Claim C1: for every 11-character string of ASCII digits and uppercase
letters, `computeIsinCheckDigit` returns exactly the digit prescribed by
the spec's algorithm (expand characters to numerals, double the digits at
odd 1-based positions from the right, reduce doubled values above 9 to
their digit sum, sum, and take (10 − (sum mod 10)) mod 10); in
particular the three pinned real-world values 5, 5 and 4. -/
theorem computeCheckDigit_follows_spec :
    (∀ base : List Char, base.length = 11 →
        (∀ c ∈ base, (isUpperAZ c || isDigit09 c) = true) →
        computeIsinCheckDigit base = .ok (specCheckDigit base))
    ∧ computeIsinCheckDigit "US037833100".data = .ok 5
    ∧ computeIsinCheckDigit "US594918104".data = .ok 5
    ∧ computeIsinCheckDigit "US88160R101".data = .ok 4 := by
  refine ⟨?_, rfl, rfl, rfl⟩
  intro base hlen hval
  rw [computeIsinCheckDigit, if_neg (by simp [hlen]), expandChars_ok base hval]
  simp [Except.map, specCheckDigit, luhnSum_eq_specLuhnSum]

/-- Witness for C1 at the concrete base "US88160R101". -/
theorem computeCheckDigit_follows_spec_witness :
    "US88160R101".data.length = 11
    ∧ (∀ c ∈ "US88160R101".data, (isUpperAZ c || isDigit09 c) = true)
    ∧ computeIsinCheckDigit "US88160R101".data = .ok (specCheckDigit "US88160R101".data) :=
  ⟨by decide, by decide, computeCheckDigit_follows_spec.1 _ (by decide) (by decide)⟩

theorem expandChars_error (l : List Char) :
    ∀ c0 ∈ l, (isUpperAZ c0 || isDigit09 c0) = false →
    ∃ c, (c ∈ l ∧ (isUpperAZ c || isDigit09 c) = false) ∧
      expandChars l = .error (invalidCharMsg c) := by
  induction l with
  | nil => intro c0 h0 _; exact absurd h0 (List.not_mem_nil c0)
  | cons c cs ih =>
    intro c0 hc0 hbad
    by_cases hu : isUpperAZ c = true
    · have hc0cs : c0 ∈ cs := by
        rcases List.mem_cons.mp hc0 with h | h
        · subst h; simp [hu] at hbad
        · exact h
      obtain ⟨c1, ⟨hm, hb⟩, he⟩ := ih c0 hc0cs hbad
      refine ⟨c1, ⟨List.mem_cons_of_mem c hm, hb⟩, ?_⟩
      simp only [expandChars]
      rw [if_pos hu, he]
      rfl
    · by_cases hd : isDigit09 c = true
      · have hc0cs : c0 ∈ cs := by
          rcases List.mem_cons.mp hc0 with h | h
          · subst h; simp [hu, hd] at hbad
          · exact h
        obtain ⟨c1, ⟨hm, hb⟩, he⟩ := ih c0 hc0cs hbad
        refine ⟨c1, ⟨List.mem_cons_of_mem c hm, hb⟩, ?_⟩
        simp only [expandChars]
        rw [if_neg hu, if_pos hd, he]
        rfl
      · refine ⟨c, ⟨List.mem_cons_self c cs, ?_⟩, ?_⟩
        · simp only [Bool.or_eq_false_iff]
          exact ⟨by simpa using hu, by simpa using hd⟩
        · simp only [expandChars]
          rw [if_neg hu, if_neg hd]

/-- Claim C8 counterexample: the empty input violates the precondition of
`computeIsinCheckDigit` (its length is not 11), yet the function fails
with the length error, which is not an invalid-character error. -/
theorem computeCheckDigit_invalidCharacter_cex :
    computeIsinCheckDigit ([] : List Char) = .error lengthMsg
    ∧ isInvalidCharacterError lengthMsg = false
    ∧ isInvalidCharacterError (invalidCharMsg '*') = true :=
  ⟨rfl, rfl, rfl⟩

theorem isInvalidCharacterError_invalidCharMsg (c : Char) :
    isInvalidCharacterError (invalidCharMsg c) = true := by
  unfold isInvalidCharacterError invalidCharMsg
  rw [String.data_append, List.take_append_of_le_length (by decide)]
  decide

/-- Claim C8 (amended): `computeIsinCheckDigit` fails with an error for
every input violating its precondition — with the length error when the
input is not exactly 11 characters, and with an InvalidCharacter error
(naming an offending character) when the input is 11 characters long and
some character is neither an ASCII digit nor an uppercase ASCII letter. -/
theorem computeCheckDigit_error_amended :
    (∀ base : List Char, base.length ≠ 11 →
        computeIsinCheckDigit base = .error lengthMsg
        ∧ isInvalidCharacterError lengthMsg = false)
    ∧ (∀ base : List Char, base.length = 11 →
        ∀ c0 ∈ base, (isUpperAZ c0 || isDigit09 c0) = false →
        ∃ c, (c ∈ base ∧ (isUpperAZ c || isDigit09 c) = false) ∧
          computeIsinCheckDigit base = .error (invalidCharMsg c)
          ∧ isInvalidCharacterError (invalidCharMsg c) = true) := by
  constructor
  · intro base hlen
    exact ⟨by rw [computeIsinCheckDigit, if_pos hlen], rfl⟩
  · intro base hlen c0 hc0 hbad
    obtain ⟨c, ⟨hm, hb⟩, he⟩ := expandChars_error base c0 hc0 hbad
    refine ⟨c, ⟨hm, hb⟩, ?_, isInvalidCharacterError_invalidCharMsg c⟩
    rw [computeIsinCheckDigit, if_neg (by simp [hlen]), he]
    rfl

/-- Witness for the amended C8: a wrong-length input and an 11-character
input with an invalid character. -/
theorem computeCheckDigit_error_amended_witness :
    (computeIsinCheckDigit "US".data = .error lengthMsg
      ∧ isInvalidCharacterError lengthMsg = false)
    ∧ ∃ c, (c ∈ "US03783310*".data ∧ (isUpperAZ c || isDigit09 c) = false) ∧
        computeIsinCheckDigit "US03783310*".data = .error (invalidCharMsg c)
        ∧ isInvalidCharacterError (invalidCharMsg c) = true :=
  ⟨computeCheckDigit_error_amended.1 _ (by decide),
   computeCheckDigit_error_amended.2 _ (by decide) '*' (by decide) (by decide)⟩

/-- Claim C7: `validateIsin` is a total function returning a structured
result (the embedding is total by construction — the source catches the
check-digit computation's exceptions), and it reports `valid = false`
with a distinct specific reason for each failure class: length ≠ 12,
country code not two uppercase ASCII letters, trailing character not a
digit, and computed check digit not matching the supplied 12th
character; in particular "US0378331006" is rejected with
"Invalid check digit". -/
theorem validateIsin_error_classes :
    (∀ isin : List Char, isin.length ≠ 12 →
        validateIsin isin = ⟨false, some lenMsg12⟩)
    ∧ (∀ isin : List Char, isin.length = 12 → countryCodeOk isin = false →
        validateIsin isin = ⟨false, some ccMsg⟩)
    ∧ (∀ isin : List Char, isin.length = 12 → countryCodeOk isin = true →
        isDigit09 (isin.getD 11 ' ') = false →
        validateIsin isin = ⟨false, some nanMsg⟩)
    ∧ (∀ isin : List Char, ∀ computed provided : Nat, isin.length = 12 →
        countryCodeOk isin = true →
        parseDigitChar (isin.getD 11 ' ') = some provided →
        computeIsinCheckDigit (isin.take 11) = .ok computed →
        computed ≠ provided →
        validateIsin isin = ⟨false, some badCheckMsg⟩)
    ∧ validateIsin "US0378331006".data = ⟨false, some badCheckMsg⟩
    ∧ (lenMsg12 ≠ ccMsg ∧ lenMsg12 ≠ nanMsg ∧ lenMsg12 ≠ badCheckMsg
       ∧ ccMsg ≠ nanMsg ∧ ccMsg ≠ badCheckMsg ∧ nanMsg ≠ badCheckMsg) := by
  refine ⟨?_, ?_, ?_, ?_, rfl, by decide⟩
  · intro isin h
    rw [validateIsin, if_pos h]
  · intro isin h12 hcc
    rw [validateIsin, if_neg (by simp [h12]), if_pos hcc]
  · intro isin h12 hcc hd
    have hp : parseDigitChar (isin.getD 11 ' ') = none := by
      rw [parseDigitChar, if_neg (by simp only [hd]; decide)]
    rw [validateIsin, if_neg (by simp [h12]), if_neg (by simp [hcc]), hp]
  · intro isin computed provided h12 hcc hp hcomp hne
    rw [validateIsin, if_neg (by simp [h12]), if_neg (by simp [hcc]), hp, hcomp]
    simp [hne]

/-- Witness for C7: one concrete input per failure class. -/
theorem validateIsin_error_classes_witness :
    validateIsin "US03783".data = ⟨false, some lenMsg12⟩
    ∧ validateIsin "us0378331005".data = ⟨false, some ccMsg⟩
    ∧ validateIsin "US037833100X".data = ⟨false, some nanMsg⟩
    ∧ validateIsin "US0378331009".data = ⟨false, some badCheckMsg⟩ :=
  ⟨validateIsin_error_classes.1 _ (by decide),
   validateIsin_error_classes.2.1 _ (by decide) (by decide),
   validateIsin_error_classes.2.2.1 _ (by decide) (by decide) (by decide),
   validateIsin_error_classes.2.2.2.1 _ 5 9 (by decide) (by decide) rfl rfl (by decide)⟩

theorem toNat_ofNat_valid {n : Nat} (h : n < 55296) : (Char.ofNat n).toNat = n := by
  unfold Char.ofNat
  rw [dif_pos (Or.inl h)]
  rfl

theorem toUpper_toNat_lower (c : Char) (h : 97 ≤ c.toNat ∧ c.toNat ≤ 122) :
    c.toUpper.toNat = c.toNat - 32 := by
  show (if c.toNat ≥ 97 ∧ c.toNat ≤ 122 then Char.ofNat (c.toNat - 32) else c).toNat = _
  rw [if_pos ⟨h.1, h.2⟩]
  exact toNat_ofNat_valid (by omega)

theorem toUpper_toNat_other (c : Char) (h : ¬(97 ≤ c.toNat ∧ c.toNat ≤ 122)) :
    c.toUpper.toNat = c.toNat := by
  show (if c.toNat ≥ 97 ∧ c.toNat ≤ 122 then Char.ofNat (c.toNat - 32) else c).toNat = _
  rw [if_neg (fun hx => h ⟨hx.1, hx.2⟩)]

theorem toUpper_upper_or_digit (c : Char) (h : isAlnumCI c = true) :
    (isUpperAZ c.toUpper || isDigit09 c.toUpper) = true := by
  simp only [isAlnumCI, isUpperAZ, isLowerAZ, isDigit09, Bool.or_eq_true, Bool.and_eq_true,
    decide_eq_true_eq] at h ⊢
  by_cases hl : 97 ≤ c.toNat ∧ c.toNat ≤ 122
  · rw [toUpper_toNat_lower c hl]
    omega
  · rw [toUpper_toNat_other c hl]
    omega

theorem repr_digit (d : Nat) (h : d < 10) : (Nat.repr d).data = [Char.ofNat (48 + d)] := by
  interval_cases d <;> rfl

theorem validateIsin_of_append (base : List Char) (d : Nat) (hb : base.length = 11)
    (hcc : countryCodeOk (base ++ [Char.ofNat (48 + d)]) = true)
    (hd10 : d < 10)
    (hcomp : computeIsinCheckDigit base = .ok d) :
    validateIsin (base ++ [Char.ofNat (48 + d)]) = ⟨true, none⟩ := by
  have htn : (Char.ofNat (48 + d)).toNat = 48 + d := toNat_ofNat_valid (by omega)
  have hlen : (base ++ [Char.ofNat (48 + d)]).length = 12 := by simp [hb]
  have hgd : (base ++ [Char.ofNat (48 + d)]).getD 11 ' ' = Char.ofNat (48 + d) := by
    rw [List.getD_eq_getElem?_getD, List.getElem?_append_right (by omega)]
    simp [hb]
  have hdig : isDigit09 (Char.ofNat (48 + d)) = true := by
    simp only [isDigit09, htn, Bool.and_eq_true, decide_eq_true_eq]
    omega
  have hpd : parseDigitChar ((base ++ [Char.ofNat (48 + d)]).getD 11 ' ') = some d := by
    rw [hgd, parseDigitChar, if_pos hdig, htn]
    norm_num
  have htake : (base ++ [Char.ofNat (48 + d)]).take 11 = base := List.take_left' hb
  rw [validateIsin, if_neg (by simp [hlen]), if_neg (by simp [hcc]), hpd, htake, hcomp]
  simp

/-- Claim C4: for every 9-character alphanumeric CUSIP (any letter case),
`cusipToIsin` returns "US" followed by the uppercased CUSIP followed by
the computed check digit, and `validateIsin` accepts the result. -/
theorem cusipToIsin_roundtrip (c : List Char) (h9 : c.length = 9)
    (hall : c.all isAlnumCI = true) :
    ∃ d, d < 10
      ∧ computeIsinCheckDigit ('U' :: 'S' :: c.map Char.toUpper) = .ok d
      ∧ cusipToIsin c = .ok (('U' :: 'S' :: c.map Char.toUpper) ++ [Char.ofNat (48 + d)])
      ∧ validateIsin (('U' :: 'S' :: c.map Char.toUpper) ++ [Char.ofNat (48 + d)])
          = ⟨true, none⟩ := by
  have hmaplen : (c.map Char.toUpper).length = 9 := by simp [h9]
  have hbaselen : ('U' :: 'S' :: c.map Char.toUpper).length = 11 := by simp [hmaplen]
  have hvalid : ∀ x ∈ ('U' :: 'S' :: c.map Char.toUpper),
      (isUpperAZ x || isDigit09 x) = true := by
    intro x hx
    rcases List.mem_cons.mp hx with rfl | hx
    · decide
    rcases List.mem_cons.mp hx with rfl | hx
    · decide
    obtain ⟨y, hy, rfl⟩ := List.mem_map.mp hx
    exact toUpper_upper_or_digit y (List.all_eq_true.mp hall y hy)
  have hcomp : computeIsinCheckDigit ('U' :: 'S' :: c.map Char.toUpper)
      = .ok ((10 - luhnSum (specExpand ('U' :: 'S' :: c.map Char.toUpper)) % 10) % 10) := by
    rw [computeIsinCheckDigit, if_neg (by simp [hbaselen]), expandChars_ok _ hvalid]
    rfl
  have hd10 : (10 - luhnSum (specExpand ('U' :: 'S' :: c.map Char.toUpper)) % 10) % 10 < 10 :=
    Nat.mod_lt _ (by norm_num)
  refine ⟨_, hd10, hcomp, ?_, ?_⟩
  · rw [cusipToIsin, if_neg (by simp [h9]), if_neg (by simp [hall])]
    dsimp only
    rw [hcomp]
    show Except.ok (_ ++ (Nat.repr _).data) = _
    rw [repr_digit _ hd10]
  · exact validateIsin_of_append _ _ hbaselen rfl hd10 hcomp

/-- Witness for C4 at the concrete mixed-case CUSIP "88160r101". -/
theorem cusipToIsin_roundtrip_witness :
    ∃ d, d < 10
      ∧ computeIsinCheckDigit ('U' :: 'S' :: "88160r101".data.map Char.toUpper) = .ok d
      ∧ cusipToIsin "88160r101".data
          = .ok (('U' :: 'S' :: "88160r101".data.map Char.toUpper) ++ [Char.ofNat (48 + d)])
      ∧ validateIsin (('U' :: 'S' :: "88160r101".data.map Char.toUpper) ++ [Char.ofNat (48 + d)])
          = ⟨true, none⟩ :=
  cusipToIsin_roundtrip "88160r101".data (by decide) (by decide)

/-! ## Lemmas about the store -/

theorem upsertRows_length {ρ : Type} (key : ρ → Bool) (upd : ρ → ρ) (fresh : ρ)
    (rows : List ρ) (h : rows.any key = true) :
    (upsertRows key upd fresh rows).length = rows.length := by
  rw [upsertRows, if_pos h, List.length_map]

theorem upsertRows_length_new {ρ : Type} (key : ρ → Bool) (upd : ρ → ρ) (fresh : ρ)
    (rows : List ρ) (h : rows.any key = false) :
    (upsertRows key upd fresh rows).length = rows.length + 1 := by
  rw [upsertRows, if_neg (by simp [h]), List.length_append, List.length_cons, List.length_nil]

theorem upsertRows_any {ρ : Type} (key : ρ → Bool) (upd : ρ → ρ) (fresh : ρ)
    (rows : List ρ) (hf : key fresh = true)
    (hu : ∀ r, key r = true → key (upd r) = true) :
    (upsertRows key upd fresh rows).any key = true := by
  rw [upsertRows]
  by_cases h : rows.any key = true
  · rw [if_pos h, List.any_map]
    obtain ⟨r, hr, hk⟩ := List.any_eq_true.mp h
    refine List.any_eq_true.mpr ⟨r, hr, ?_⟩
    simp only [Function.comp_apply, hk, if_pos]
    exact hu r hk
  · rw [if_neg h, List.any_append]
    simp [hf]

theorem upsertRows_matching {ρ : Type} (key : ρ → Bool) (upd : ρ → ρ) (fresh : ρ)
    (rows : List ρ) :
    ∀ r ∈ upsertRows key upd fresh rows, key r = true →
      (∃ r0, r0 ∈ rows ∧ key r0 = true ∧ r = upd r0) ∨ r = fresh := by
  intro r hr hk
  rw [upsertRows] at hr
  by_cases h : rows.any key = true
  · rw [if_pos h] at hr
    obtain ⟨r0, h0, heq⟩ := List.mem_map.mp hr
    by_cases hk0 : key r0 = true
    · exact Or.inl ⟨r0, h0, hk0, by rw [← heq, if_pos hk0]⟩
    · rw [if_neg hk0] at heq
      exact absurd hk (heq ▸ hk0)
  · rw [if_neg h] at hr
    rcases List.mem_append.mp hr with h1 | h1
    · exact absurd hk (List.any_eq_false.mp (by simpa using h) r h1)
    · exact Or.inr (List.mem_singleton.mp h1)

theorem upsertRows_countP {ρ : Type} (key : ρ → Bool) (upd : ρ → ρ) (fresh : ρ)
    (rows : List ρ) (hu : ∀ r, key (upd r) = key r) (hf : key fresh = true) :
    (upsertRows key upd fresh rows).countP key
      = if rows.any key = true then rows.countP key else rows.countP key + 1 := by
  by_cases h : rows.any key = true
  · rw [upsertRows, if_pos h, if_pos h, List.countP_map]
    apply List.countP_congr
    intro a _
    by_cases hk : key a = true
    · simp [hk, hu]
    · simp only [Function.comp_apply, if_neg hk]
  · rw [upsertRows, if_neg h, if_neg h, List.countP_append]
    simp [List.countP, List.countP.go, hf]

theorem insertSecurity_sid (db : Store) (s : SecurityData) (ts : Nat) :
    (insertSecurity db s ts).2
      = if resolveSecurityId db s == 0 then db.nextId else resolveSecurityId db s := rfl

theorem insertSecurity_securities (db : Store) (s : SecurityData) (ts : Nat) :
    (insertSecurity db s ts).1.securities
      = if resolveSecurityId db s == 0 then
          db.securities ++ [⟨db.nextId, s.name, jsOr s.security_type, jsOr s.market_sector, ts, ts⟩]
        else
          db.securities.map (fun r =>
            if r.id == resolveSecurityId db s then
              { r with name := s.name, security_type := jsOr s.security_type,
                       market_sector := jsOr s.market_sector, updated_at := ts }
            else r) := rfl

theorem insertSecurity_tickers (db : Store) (s : SecurityData) (ts : Nat) :
    (insertSecurity db s ts).1.tickers
      = tickerUpsert db.tickers (insertSecurity db s ts).2 s.ticker s.exchange s.source ts := rfl

theorem insertSecurity_isins (db : Store) (s : SecurityData) (ts : Nat) :
    (insertSecurity db s ts).1.isins
      = if optTruthy s.isin then
          isinUpsert db.isins (insertSecurity db s ts).2 (s.isin.getD "") s.source ts
        else db.isins := rfl

theorem insertSecurity_cusips (db : Store) (s : SecurityData) (ts : Nat) :
    (insertSecurity db s ts).1.cusips
      = if optTruthy s.cusip then
          cusipUpsert db.cusips (insertSecurity db s ts).2 (s.cusip.getD "") s.source ts
        else db.cusips := rfl

theorem insertSecurity_ciks (db : Store) (s : SecurityData) (ts : Nat) :
    (insertSecurity db s ts).1.ciks
      = if optTruthy s.cik then
          cikUpsert db.ciks (insertSecurity db s ts).2 (s.cik.getD "") s.source ts
        else db.ciks := rfl

theorem resolveSecurityId_ticker_hit (db : Store) (s : SecurityData) (r : TickerRow)
    (hfind : findTickerRow db.tickers s.ticker s.exchange = some r)
    (hid : 1 ≤ r.security_id) :
    resolveSecurityId db s = r.security_id := by
  have h0 : (r.security_id == 0) = false := by
    simp only [beq_eq_false_iff_ne, ne_eq]
    omega
  unfold resolveSecurityId
  rw [hfind]
  simp [h0]

theorem resolveSecurityId_isin_hit (db : Store) (s : SecurityData) (r : IsinRow)
    (ht : findTickerRow db.tickers s.ticker s.exchange = none)
    (hsup : optTruthy s.isin = true)
    (hfind : findIsinRow db.isins (s.isin.getD "") = some r)
    (hid : 1 ≤ r.security_id) :
    resolveSecurityId db s = r.security_id := by
  have h0 : (r.security_id == 0) = false := by
    simp only [beq_eq_false_iff_ne, ne_eq]
    omega
  unfold resolveSecurityId
  rw [ht, hfind]
  simp [hsup, h0]

theorem resolveSecurityId_cusip_hit (db : Store) (s : SecurityData) (r : CusipRow)
    (ht : findTickerRow db.tickers s.ticker s.exchange = none)
    (hisin : optTruthy s.isin = false ∨ findIsinRow db.isins (s.isin.getD "") = none)
    (hsup : optTruthy s.cusip = true)
    (hfind : findCusipRow db.cusips (s.cusip.getD "") = some r)
    (hid : 1 ≤ r.security_id) :
    resolveSecurityId db s = r.security_id := by
  have h0 : (r.security_id == 0) = false := by
    simp only [beq_eq_false_iff_ne, ne_eq]
    omega
  unfold resolveSecurityId
  rw [ht]
  rcases hisin with h | h
  · simp [h, hsup, hfind, h0]
  · simp [h, hsup, hfind, h0]

theorem resolveSecurityId_miss (db : Store) (s : SecurityData)
    (ht : findTickerRow db.tickers s.ticker s.exchange = none)
    (hisin : optTruthy s.isin = false ∨ findIsinRow db.isins (s.isin.getD "") = none)
    (hcusip : optTruthy s.cusip = false ∨ findCusipRow db.cusips (s.cusip.getD "") = none) :
    resolveSecurityId db s = 0 := by
  unfold resolveSecurityId
  rw [ht]
  rcases hisin with h | h
  · rcases hcusip with h2 | h2
    · simp [h, h2]
    · simp [h, h2]
  · rcases hcusip with h2 | h2
    · simp [h, h2]
    · simp [h, h2]

/-- Claim C2: `insertSecurity` resolves the Security identity by an
ordered sequence of probes — ticker+exchange first, then ISIN if
supplied, then CUSIP if supplied — the first hit determining the
identity used; when all probes miss, a new securities row is appended
and its identity returned. -/
theorem upsert_resolution_order (db : Store) (s : SecurityData) (ts : Nat) :
    (∀ r : TickerRow, findTickerRow db.tickers s.ticker s.exchange = some r →
        1 ≤ r.security_id → (insertSecurity db s ts).2 = r.security_id)
    ∧ (∀ r : IsinRow, findTickerRow db.tickers s.ticker s.exchange = none →
        optTruthy s.isin = true →
        findIsinRow db.isins (s.isin.getD "") = some r →
        1 ≤ r.security_id → (insertSecurity db s ts).2 = r.security_id)
    ∧ (∀ r : CusipRow, findTickerRow db.tickers s.ticker s.exchange = none →
        (optTruthy s.isin = false ∨ findIsinRow db.isins (s.isin.getD "") = none) →
        optTruthy s.cusip = true →
        findCusipRow db.cusips (s.cusip.getD "") = some r →
        1 ≤ r.security_id → (insertSecurity db s ts).2 = r.security_id)
    ∧ (findTickerRow db.tickers s.ticker s.exchange = none →
        (optTruthy s.isin = false ∨ findIsinRow db.isins (s.isin.getD "") = none) →
        (optTruthy s.cusip = false ∨ findCusipRow db.cusips (s.cusip.getD "") = none) →
        (insertSecurity db s ts).2 = db.nextId
        ∧ (insertSecurity db s ts).1.securities
            = db.securities
              ++ [⟨db.nextId, s.name, jsOr s.security_type, jsOr s.market_sector, ts, ts⟩]) := by
  refine ⟨?_, ?_, ?_, ?_⟩
  · intro r hf hid
    have hres := resolveSecurityId_ticker_hit db s r hf hid
    have h0 : (r.security_id == 0) = false := by
      simp only [beq_eq_false_iff_ne, ne_eq]
      omega
    rw [insertSecurity_sid, hres, if_neg (by simp [h0])]
  · intro r ht hsup hf hid
    have hres := resolveSecurityId_isin_hit db s r ht hsup hf hid
    have h0 : (r.security_id == 0) = false := by
      simp only [beq_eq_false_iff_ne, ne_eq]
      omega
    rw [insertSecurity_sid, hres, if_neg (by simp [h0])]
  · intro r ht hisin hsup hf hid
    have hres := resolveSecurityId_cusip_hit db s r ht hisin hsup hf hid
    have h0 : (r.security_id == 0) = false := by
      simp only [beq_eq_false_iff_ne, ne_eq]
      omega
    rw [insertSecurity_sid, hres, if_neg (by simp [h0])]
  · intro ht hisin hcusip
    have hres := resolveSecurityId_miss db s ht hisin hcusip
    constructor
    · rw [insertSecurity_sid, hres]
      simp
    · rw [insertSecurity_securities, hres]
      simp

/-- Witness for C2: each probe branch at a concrete store. -/
theorem upsert_resolution_order_witness :
    (insertSecurity baseDb aaplData 2).2 = 1
    ∧ (insertSecurity baseDb wIsinQuery 2).2 = 1
    ∧ (insertSecurity baseDb wCusipQuery 2).2 = 1
    ∧ ((insertSecurity emptyStore wNewQuery 2).2 = emptyStore.nextId
        ∧ (insertSecurity emptyStore wNewQuery 2).1.securities
            = emptyStore.securities
              ++ [⟨emptyStore.nextId, wNewQuery.name, jsOr wNewQuery.security_type,
                   jsOr wNewQuery.market_sector, 2, 2⟩]) :=
  ⟨(upsert_resolution_order baseDb aaplData 2).1 ⟨1, "AAPL", "NASDAQ", "fmp", 1⟩ rfl (by decide),
   (upsert_resolution_order baseDb wIsinQuery 2).2.1 ⟨1, "US0378331005", "fmp", 1⟩ rfl rfl rfl
     (by decide),
   (upsert_resolution_order baseDb wCusipQuery 2).2.2.1 ⟨1, "037833100", "fmp", 1⟩ rfl
     (Or.inl rfl) rfl rfl (by decide),
   (upsert_resolution_order emptyStore wNewQuery 2).2.2.2 rfl (Or.inl rfl) (Or.inl rfl)⟩

theorem insertSecurity_sid_pos (db : Store) (s : SecurityData) (ts : Nat)
    (h : 1 ≤ db.nextId) : 1 ≤ (insertSecurity db s ts).2 := by
  rw [insertSecurity_sid]
  by_cases h0 : resolveSecurityId db s = 0
  · simpa [h0] using h
  · rw [if_neg (by simp [h0])]
    omega

theorem insertSecurity_ticker_present (db : Store) (s : SecurityData) (ts : Nat) :
    ∃ r, findTickerRow (insertSecurity db s ts).1.tickers s.ticker s.exchange = some r
      ∧ r.security_id = (insertSecurity db s ts).2 := by
  rw [insertSecurity_tickers]
  unfold findTickerRow tickerUpsert
  generalize (insertSecurity db s ts).2 = sid
  have hany := upsertRows_any
    (fun r : TickerRow => r.ticker == s.ticker && r.exchange == s.exchange)
    (fun r => { r with security_id := sid, source := s.source, fetched_at := ts })
    ⟨sid, s.ticker, s.exchange, s.source, ts⟩ db.tickers (by simp) (fun r h => h)
  obtain ⟨r, hfind⟩ :=
    Option.isSome_iff_exists.mp (List.find?_isSome.mpr (List.any_eq_true.mp hany))
  refine ⟨r, hfind, ?_⟩
  have hk := List.find?_some hfind
  have hmem := List.mem_of_find?_eq_some hfind
  rcases upsertRows_matching _ _ _ _ r hmem hk with ⟨r0, _, _, rfl⟩ | rfl
  · rfl
  · rfl

theorem findTickerRow_any (rows : List TickerRow) (t e : String) (r : TickerRow)
    (h : findTickerRow rows t e = some r) :
    rows.any (fun x => x.ticker == t && x.exchange == e) = true := by
  unfold findTickerRow at h
  exact List.any_eq_true.mpr (List.find?_isSome.mp (by rw [h]; rfl))

theorem insertSecurity_isin_any (db : Store) (s : SecurityData) (ts : Nat)
    (h : optTruthy s.isin = true) :
    ((insertSecurity db s ts).1.isins.any (fun r => r.isin == s.isin.getD "")) = true := by
  rw [insertSecurity_isins, if_pos h]
  apply upsertRows_any
  · simp
  · exact fun r hr => hr

theorem insertSecurity_cusip_any (db : Store) (s : SecurityData) (ts : Nat)
    (h : optTruthy s.cusip = true) :
    ((insertSecurity db s ts).1.cusips.any (fun r => r.cusip == s.cusip.getD "")) = true := by
  rw [insertSecurity_cusips, if_pos h]
  apply upsertRows_any
  · simp
  · exact fun r hr => hr

theorem insertSecurity_cik_any (db : Store) (s : SecurityData) (ts : Nat)
    (h : optTruthy s.cik = true) :
    ((insertSecurity db s ts).1.ciks.any (fun r => r.cik == s.cik.getD "")) = true := by
  rw [insertSecurity_ciks, if_pos h]
  apply upsertRows_any
  · simp
  · exact fun r hr => hr

theorem insertSecurity_nextId (db : Store) (s : SecurityData) (ts : Nat) :
    (insertSecurity db s ts).1.nextId
      = if resolveSecurityId db s == 0 then db.nextId + 1 else db.nextId := rfl

theorem insertSecurity_ticker_fields (db : Store) (s : SecurityData) (ts : Nat) :
    ∀ r ∈ (insertSecurity db s ts).1.tickers,
      (r.ticker == s.ticker && r.exchange == s.exchange) = true →
      r.security_id = (insertSecurity db s ts).2 ∧ r.source = s.source := by
  intro r hr hk
  rw [insertSecurity_tickers] at hr
  unfold tickerUpsert at hr
  rcases upsertRows_matching _ _ _ _ r hr hk with ⟨r0, _, _, rfl⟩ | rfl
  · exact ⟨rfl, rfl⟩
  · exact ⟨rfl, rfl⟩

theorem insertSecurity_isin_fields (db : Store) (s : SecurityData) (ts : Nat)
    (hsup : optTruthy s.isin = true) :
    ∀ r ∈ (insertSecurity db s ts).1.isins, (r.isin == s.isin.getD "") = true →
      r.security_id = (insertSecurity db s ts).2 ∧ r.source = s.source := by
  intro r hr hk
  rw [insertSecurity_isins, if_pos hsup] at hr
  unfold isinUpsert at hr
  rcases upsertRows_matching _ _ _ _ r hr hk with ⟨r0, _, _, rfl⟩ | rfl
  · exact ⟨rfl, rfl⟩
  · exact ⟨rfl, rfl⟩

theorem insertSecurity_cusip_fields (db : Store) (s : SecurityData) (ts : Nat)
    (hsup : optTruthy s.cusip = true) :
    ∀ r ∈ (insertSecurity db s ts).1.cusips, (r.cusip == s.cusip.getD "") = true →
      r.security_id = (insertSecurity db s ts).2 ∧ r.source = s.source := by
  intro r hr hk
  rw [insertSecurity_cusips, if_pos hsup] at hr
  unfold cusipUpsert at hr
  rcases upsertRows_matching _ _ _ _ r hr hk with ⟨r0, _, _, rfl⟩ | rfl
  · exact ⟨rfl, rfl⟩
  · exact ⟨rfl, rfl⟩

theorem insertSecurity_cik_fields (db : Store) (s : SecurityData) (ts : Nat)
    (hsup : optTruthy s.cik = true) :
    ∀ r ∈ (insertSecurity db s ts).1.ciks, (r.cik == s.cik.getD "") = true →
      r.security_id = (insertSecurity db s ts).2 ∧ r.source = s.source := by
  intro r hr hk
  rw [insertSecurity_ciks, if_pos hsup] at hr
  unfold cikUpsert at hr
  rcases upsertRows_matching _ _ _ _ r hr hk with ⟨r0, _, _, rfl⟩ | rfl
  · exact ⟨rfl, rfl⟩
  · exact ⟨rfl, rfl⟩

theorem insertSecurity_securities_fields (db : Store) (s : SecurityData) (ts : Nat)
    (hfresh : ∀ r ∈ db.securities, r.id ≠ db.nextId) :
    ∀ r ∈ (insertSecurity db s ts).1.securities, r.id = (insertSecurity db s ts).2 →
      r.name = s.name ∧ r.security_type = jsOr s.security_type
        ∧ r.market_sector = jsOr s.market_sector := by
  intro r hr hid
  rw [insertSecurity_securities] at hr
  rw [insertSecurity_sid] at hid
  by_cases h0 : (resolveSecurityId db s == 0) = true
  · rw [if_pos h0] at hr
    rw [if_pos h0] at hid
    rcases List.mem_append.mp hr with h | h
    · exact absurd hid (hfresh r h)
    · rw [List.mem_singleton] at h
      subst h
      exact ⟨rfl, rfl, rfl⟩
  · rw [if_neg h0] at hr
    rw [if_neg h0] at hid
    obtain ⟨r0, h0mem, heq⟩ := List.mem_map.mp hr
    by_cases hk : (r0.id == resolveSecurityId db s) = true
    · rw [if_pos hk] at heq
      rw [← heq]
      exact ⟨rfl, rfl, rfl⟩
    · rw [if_neg hk] at heq
      rw [← heq] at hid
      exact absurd (by simp [hid]) hk

theorem upsertRows_map_erase {ρ : Type} (key : ρ → Bool) (upd : ρ → ρ) (fresh : ρ)
    (rows : List ρ) (er : ρ → ρ)
    (hany : rows.any key = true)
    (hupd : ∀ r ∈ rows, key r = true → er (upd r) = er r) :
    (upsertRows key upd fresh rows).map er = rows.map er := by
  rw [upsertRows, if_pos hany, List.map_map]
  apply List.map_congr_left
  intro r hr
  by_cases hk : key r = true
  · simp only [Function.comp_apply]
    rw [if_pos hk]
    exact hupd r hr hk
  · simp only [Function.comp_apply]
    rw [if_neg hk]

/-- Claim C3: the upsert is idempotent — repeating `insertSecurity` with
identical input leaves the securities row count and every
identifier-table row count exactly as after the first call, and only
timestamp fields change: with the timestamp fields erased, every table
of the store after the second call is identical to the corresponding
table after the first call, and the rowid counter is unchanged.  The
hypotheses say the store's rowids are real SQLite rowids: the next
rowid is at least 1 and is not carried by any existing securities row. -/
theorem upsert_idempotent (db : Store) (s : SecurityData) (ts1 ts2 : Nat)
    (h1 : 1 ≤ db.nextId)
    (hfresh : ∀ r ∈ db.securities, r.id ≠ db.nextId) :
    ((insertSecurity (insertSecurity db s ts1).1 s ts2).1.securities.length
        = (insertSecurity db s ts1).1.securities.length
      ∧ (insertSecurity (insertSecurity db s ts1).1 s ts2).1.tickers.length
          = (insertSecurity db s ts1).1.tickers.length
      ∧ (insertSecurity (insertSecurity db s ts1).1 s ts2).1.isins.length
          = (insertSecurity db s ts1).1.isins.length
      ∧ (insertSecurity (insertSecurity db s ts1).1 s ts2).1.cusips.length
          = (insertSecurity db s ts1).1.cusips.length
      ∧ (insertSecurity (insertSecurity db s ts1).1 s ts2).1.ciks.length
          = (insertSecurity db s ts1).1.ciks.length)
    ∧ ((insertSecurity (insertSecurity db s ts1).1 s ts2).1.securities.map eraseSecurityTs
        = (insertSecurity db s ts1).1.securities.map eraseSecurityTs
      ∧ (insertSecurity (insertSecurity db s ts1).1 s ts2).1.tickers.map eraseTickerTs
          = (insertSecurity db s ts1).1.tickers.map eraseTickerTs
      ∧ (insertSecurity (insertSecurity db s ts1).1 s ts2).1.isins.map eraseIsinTs
          = (insertSecurity db s ts1).1.isins.map eraseIsinTs
      ∧ (insertSecurity (insertSecurity db s ts1).1 s ts2).1.cusips.map eraseCusipTs
          = (insertSecurity db s ts1).1.cusips.map eraseCusipTs
      ∧ (insertSecurity (insertSecurity db s ts1).1 s ts2).1.ciks.map eraseCikTs
          = (insertSecurity db s ts1).1.ciks.map eraseCikTs)
    ∧ (insertSecurity (insertSecurity db s ts1).1 s ts2).1.nextId
        = (insertSecurity db s ts1).1.nextId := by
  have hsid : 1 ≤ (insertSecurity db s ts1).2 := insertSecurity_sid_pos db s ts1 h1
  obtain ⟨r, hfind, hr⟩ := insertSecurity_ticker_present db s ts1
  have hres2 : resolveSecurityId (insertSecurity db s ts1).1 s = (insertSecurity db s ts1).2 := by
    rw [resolveSecurityId_ticker_hit (insertSecurity db s ts1).1 s r hfind (by omega), hr]
  have hres2ne : (resolveSecurityId (insertSecurity db s ts1).1 s == 0) = false := by
    rw [hres2]
    simp only [beq_eq_false_iff_ne, ne_eq]
    omega
  have hsid2 : (insertSecurity (insertSecurity db s ts1).1 s ts2).2
      = (insertSecurity db s ts1).2 := by
    rw [insertSecurity_sid, if_neg (by simp [hres2ne]), hres2]
  refine ⟨⟨?_, ?_, ?_, ?_, ?_⟩, ⟨?_, ?_, ?_, ?_, ?_⟩, ?_⟩
  · rw [insertSecurity_securities, if_neg (by simp [hres2ne]), List.length_map]
  · rw [insertSecurity_tickers]
    unfold tickerUpsert
    exact upsertRows_length _ _ _ _ (findTickerRow_any _ _ _ r hfind)
  · by_cases hsup : optTruthy s.isin = true
    · rw [insertSecurity_isins, if_pos hsup]
      unfold isinUpsert
      exact upsertRows_length _ _ _ _ (insertSecurity_isin_any db s ts1 hsup)
    · rw [insertSecurity_isins, if_neg hsup]
  · by_cases hsup : optTruthy s.cusip = true
    · rw [insertSecurity_cusips, if_pos hsup]
      unfold cusipUpsert
      exact upsertRows_length _ _ _ _ (insertSecurity_cusip_any db s ts1 hsup)
    · rw [insertSecurity_cusips, if_neg hsup]
  · by_cases hsup : optTruthy s.cik = true
    · rw [insertSecurity_ciks, if_pos hsup]
      unfold cikUpsert
      exact upsertRows_length _ _ _ _ (insertSecurity_cik_any db s ts1 hsup)
    · rw [insertSecurity_ciks, if_neg hsup]
  · rw [insertSecurity_securities, if_neg (by simp [hres2ne]), hres2, List.map_map]
    apply List.map_congr_left
    intro q hq
    by_cases hk : (q.id == (insertSecurity db s ts1).2) = true
    · obtain ⟨hn, hst, hms⟩ :=
        insertSecurity_securities_fields db s ts1 hfresh q hq (by simpa using hk)
      simp only [Function.comp_apply]
      rw [if_pos hk]
      simp [eraseSecurityTs, hn, hst, hms]
    · simp only [Function.comp_apply]
      rw [if_neg hk]
  · rw [insertSecurity_tickers, hsid2]
    unfold tickerUpsert
    apply upsertRows_map_erase _ _ _ _ _ (findTickerRow_any _ _ _ r hfind)
    intro q hq hk
    obtain ⟨hsec, hsrc⟩ := insertSecurity_ticker_fields db s ts1 q hq hk
    simp [eraseTickerTs, hsec, hsrc]
  · by_cases hsup : optTruthy s.isin = true
    · rw [insertSecurity_isins, if_pos hsup, hsid2]
      unfold isinUpsert
      apply upsertRows_map_erase _ _ _ _ _ (insertSecurity_isin_any db s ts1 hsup)
      intro q hq hk
      obtain ⟨hsec, hsrc⟩ := insertSecurity_isin_fields db s ts1 hsup q hq hk
      simp [eraseIsinTs, hsec, hsrc]
    · rw [insertSecurity_isins, if_neg hsup]
  · by_cases hsup : optTruthy s.cusip = true
    · rw [insertSecurity_cusips, if_pos hsup, hsid2]
      unfold cusipUpsert
      apply upsertRows_map_erase _ _ _ _ _ (insertSecurity_cusip_any db s ts1 hsup)
      intro q hq hk
      obtain ⟨hsec, hsrc⟩ := insertSecurity_cusip_fields db s ts1 hsup q hq hk
      simp [eraseCusipTs, hsec, hsrc]
    · rw [insertSecurity_cusips, if_neg hsup]
  · by_cases hsup : optTruthy s.cik = true
    · rw [insertSecurity_ciks, if_pos hsup, hsid2]
      unfold cikUpsert
      apply upsertRows_map_erase _ _ _ _ _ (insertSecurity_cik_any db s ts1 hsup)
      intro q hq hk
      obtain ⟨hsec, hsrc⟩ := insertSecurity_cik_fields db s ts1 hsup q hq hk
      simp [eraseCikTs, hsec, hsrc]
    · rw [insertSecurity_ciks, if_neg hsup]
  · rw [insertSecurity_nextId, if_neg (by simp [hres2ne])]

/-- Witness for C3 at a concrete fresh store and record. -/
theorem upsert_idempotent_witness :
    1 ≤ emptyStore.nextId
    ∧ (∀ r ∈ emptyStore.securities, r.id ≠ emptyStore.nextId)
    ∧ (((insertSecurity (insertSecurity emptyStore aaplData 1).1 aaplData 2).1.securities.length
          = (insertSecurity emptyStore aaplData 1).1.securities.length
        ∧ (insertSecurity (insertSecurity emptyStore aaplData 1).1 aaplData 2).1.tickers.length
            = (insertSecurity emptyStore aaplData 1).1.tickers.length
        ∧ (insertSecurity (insertSecurity emptyStore aaplData 1).1 aaplData 2).1.isins.length
            = (insertSecurity emptyStore aaplData 1).1.isins.length
        ∧ (insertSecurity (insertSecurity emptyStore aaplData 1).1 aaplData 2).1.cusips.length
            = (insertSecurity emptyStore aaplData 1).1.cusips.length
        ∧ (insertSecurity (insertSecurity emptyStore aaplData 1).1 aaplData 2).1.ciks.length
            = (insertSecurity emptyStore aaplData 1).1.ciks.length)
      ∧ ((insertSecurity (insertSecurity emptyStore aaplData 1).1 aaplData 2).1.securities.map
            eraseSecurityTs
          = (insertSecurity emptyStore aaplData 1).1.securities.map eraseSecurityTs
        ∧ (insertSecurity (insertSecurity emptyStore aaplData 1).1 aaplData 2).1.tickers.map
              eraseTickerTs
            = (insertSecurity emptyStore aaplData 1).1.tickers.map eraseTickerTs
        ∧ (insertSecurity (insertSecurity emptyStore aaplData 1).1 aaplData 2).1.isins.map
              eraseIsinTs
            = (insertSecurity emptyStore aaplData 1).1.isins.map eraseIsinTs
        ∧ (insertSecurity (insertSecurity emptyStore aaplData 1).1 aaplData 2).1.cusips.map
              eraseCusipTs
            = (insertSecurity emptyStore aaplData 1).1.cusips.map eraseCusipTs
        ∧ (insertSecurity (insertSecurity emptyStore aaplData 1).1 aaplData 2).1.ciks.map
              eraseCikTs
            = (insertSecurity emptyStore aaplData 1).1.ciks.map eraseCikTs)
      ∧ (insertSecurity (insertSecurity emptyStore aaplData 1).1 aaplData 2).1.nextId
          = (insertSecurity emptyStore aaplData 1).1.nextId) :=
  ⟨by decide, by decide, upsert_idempotent emptyStore aaplData 1 2 (by decide) (by decide)⟩

/-- Claim C5 counterexample: in the store reached by upserting
(ticker A/E, CUSIP C), then (ticker B/E), then (ticker B/E, CUSIP C),
the pre-existing CUSIP row for value C is updated in place but its
owning-Security reference changes from 1 to 2 — not only its provenance
tag and timestamp, contrary to the claim's "provenance tag and timestamp
only". -/
theorem upsert_inplace_only_cex :
    cexDb2.cusips = [⟨1, "C", "src1", 1⟩]
    ∧ cexDb3 = (insertSecurity cexDb2 cexS3 3).1
    ∧ cexDb3.cusips = [⟨2, "C", "src3", 3⟩] :=
  ⟨rfl, rfl, rfl⟩

/-- Claim C5 (amended): when `insertSecurity` is given an identifier
value that already has a row in its identifier table, that row is
updated in place — its provenance tag, its timestamp, and its
owning-Security reference (set to the resolved identity) — and a second
row for the same identifier value is never created: the number of rows
matching the identifier value stays the same when the value was present,
and becomes one more (from zero) only when it was absent. -/
theorem upsert_identifier_inplace (db : Store) (s : SecurityData) (ts : Nat) :
    ((∀ r ∈ (insertSecurity db s ts).1.tickers,
        (r.ticker == s.ticker && r.exchange == s.exchange) = true →
        r.security_id = (insertSecurity db s ts).2 ∧ r.source = s.source ∧ r.fetched_at = ts)
      ∧ (insertSecurity db s ts).1.tickers.countP
            (fun r => r.ticker == s.ticker && r.exchange == s.exchange)
          = if db.tickers.any (fun r => r.ticker == s.ticker && r.exchange == s.exchange) = true
            then db.tickers.countP (fun r => r.ticker == s.ticker && r.exchange == s.exchange)
            else db.tickers.countP (fun r => r.ticker == s.ticker && r.exchange == s.exchange) + 1)
    ∧ (optTruthy s.isin = true →
        (∀ r ∈ (insertSecurity db s ts).1.isins, (r.isin == s.isin.getD "") = true →
          r.security_id = (insertSecurity db s ts).2 ∧ r.source = s.source ∧ r.fetched_at = ts)
        ∧ (insertSecurity db s ts).1.isins.countP (fun r => r.isin == s.isin.getD "")
            = if db.isins.any (fun r => r.isin == s.isin.getD "") = true
              then db.isins.countP (fun r => r.isin == s.isin.getD "")
              else db.isins.countP (fun r => r.isin == s.isin.getD "") + 1)
    ∧ (optTruthy s.cusip = true →
        (∀ r ∈ (insertSecurity db s ts).1.cusips, (r.cusip == s.cusip.getD "") = true →
          r.security_id = (insertSecurity db s ts).2 ∧ r.source = s.source ∧ r.fetched_at = ts)
        ∧ (insertSecurity db s ts).1.cusips.countP (fun r => r.cusip == s.cusip.getD "")
            = if db.cusips.any (fun r => r.cusip == s.cusip.getD "") = true
              then db.cusips.countP (fun r => r.cusip == s.cusip.getD "")
              else db.cusips.countP (fun r => r.cusip == s.cusip.getD "") + 1)
    ∧ (optTruthy s.cik = true →
        (∀ r ∈ (insertSecurity db s ts).1.ciks, (r.cik == s.cik.getD "") = true →
          r.security_id = (insertSecurity db s ts).2 ∧ r.source = s.source ∧ r.fetched_at = ts)
        ∧ (insertSecurity db s ts).1.ciks.countP (fun r => r.cik == s.cik.getD "")
            = if db.ciks.any (fun r => r.cik == s.cik.getD "") = true
              then db.ciks.countP (fun r => r.cik == s.cik.getD "")
              else db.ciks.countP (fun r => r.cik == s.cik.getD "") + 1) := by
  refine ⟨⟨?_, ?_⟩, fun hsup => ⟨?_, ?_⟩, fun hsup => ⟨?_, ?_⟩, fun hsup => ⟨?_, ?_⟩⟩
  · intro r hr hk
    rw [insertSecurity_tickers] at hr
    unfold tickerUpsert at hr
    rcases upsertRows_matching _ _ _ _ r hr hk with ⟨r0, _, _, rfl⟩ | rfl
    · exact ⟨rfl, rfl, rfl⟩
    · exact ⟨rfl, rfl, rfl⟩
  · rw [insertSecurity_tickers]
    unfold tickerUpsert
    exact upsertRows_countP _ _ _ _ (fun r => rfl) (by simp)
  · intro r hr hk
    rw [insertSecurity_isins, if_pos hsup] at hr
    unfold isinUpsert at hr
    rcases upsertRows_matching _ _ _ _ r hr hk with ⟨r0, _, _, rfl⟩ | rfl
    · exact ⟨rfl, rfl, rfl⟩
    · exact ⟨rfl, rfl, rfl⟩
  · rw [insertSecurity_isins, if_pos hsup]
    unfold isinUpsert
    exact upsertRows_countP _ _ _ _ (fun r => rfl) (by simp)
  · intro r hr hk
    rw [insertSecurity_cusips, if_pos hsup] at hr
    unfold cusipUpsert at hr
    rcases upsertRows_matching _ _ _ _ r hr hk with ⟨r0, _, _, rfl⟩ | rfl
    · exact ⟨rfl, rfl, rfl⟩
    · exact ⟨rfl, rfl, rfl⟩
  · rw [insertSecurity_cusips, if_pos hsup]
    unfold cusipUpsert
    exact upsertRows_countP _ _ _ _ (fun r => rfl) (by simp)
  · intro r hr hk
    rw [insertSecurity_ciks, if_pos hsup] at hr
    unfold cikUpsert at hr
    rcases upsertRows_matching _ _ _ _ r hr hk with ⟨r0, _, _, rfl⟩ | rfl
    · exact ⟨rfl, rfl, rfl⟩
    · exact ⟨rfl, rfl, rfl⟩
  · rw [insertSecurity_ciks, if_pos hsup]
    unfold cikUpsert
    exact upsertRows_countP _ _ _ _ (fun r => rfl) (by simp)

/-- Witness for the amended C5: an input carrying all four identifier
kinds, upserted into a fresh store. -/
theorem upsert_identifier_inplace_witness :
    ((∀ r ∈ (insertSecurity emptyStore wAllIds 7).1.tickers,
        (r.ticker == wAllIds.ticker && r.exchange == wAllIds.exchange) = true →
        r.security_id = (insertSecurity emptyStore wAllIds 7).2
          ∧ r.source = wAllIds.source ∧ r.fetched_at = 7)
      ∧ (insertSecurity emptyStore wAllIds 7).1.tickers.countP
            (fun r => r.ticker == wAllIds.ticker && r.exchange == wAllIds.exchange)
          = if emptyStore.tickers.any
                (fun r => r.ticker == wAllIds.ticker && r.exchange == wAllIds.exchange) = true
            then emptyStore.tickers.countP
                (fun r => r.ticker == wAllIds.ticker && r.exchange == wAllIds.exchange)
            else emptyStore.tickers.countP
                (fun r => r.ticker == wAllIds.ticker && r.exchange == wAllIds.exchange) + 1)
    ∧ ((∀ r ∈ (insertSecurity emptyStore wAllIds 7).1.isins,
          (r.isin == wAllIds.isin.getD "") = true →
          r.security_id = (insertSecurity emptyStore wAllIds 7).2
            ∧ r.source = wAllIds.source ∧ r.fetched_at = 7)
      ∧ (insertSecurity emptyStore wAllIds 7).1.isins.countP
            (fun r => r.isin == wAllIds.isin.getD "")
          = if emptyStore.isins.any (fun r => r.isin == wAllIds.isin.getD "") = true
            then emptyStore.isins.countP (fun r => r.isin == wAllIds.isin.getD "")
            else emptyStore.isins.countP (fun r => r.isin == wAllIds.isin.getD "") + 1)
    ∧ ((∀ r ∈ (insertSecurity emptyStore wAllIds 7).1.cusips,
          (r.cusip == wAllIds.cusip.getD "") = true →
          r.security_id = (insertSecurity emptyStore wAllIds 7).2
            ∧ r.source = wAllIds.source ∧ r.fetched_at = 7)
      ∧ (insertSecurity emptyStore wAllIds 7).1.cusips.countP
            (fun r => r.cusip == wAllIds.cusip.getD "")
          = if emptyStore.cusips.any (fun r => r.cusip == wAllIds.cusip.getD "") = true
            then emptyStore.cusips.countP (fun r => r.cusip == wAllIds.cusip.getD "")
            else emptyStore.cusips.countP (fun r => r.cusip == wAllIds.cusip.getD "") + 1)
    ∧ ((∀ r ∈ (insertSecurity emptyStore wAllIds 7).1.ciks,
          (r.cik == wAllIds.cik.getD "") = true →
          r.security_id = (insertSecurity emptyStore wAllIds 7).2
            ∧ r.source = wAllIds.source ∧ r.fetched_at = 7)
      ∧ (insertSecurity emptyStore wAllIds 7).1.ciks.countP
            (fun r => r.cik == wAllIds.cik.getD "")
          = if emptyStore.ciks.any (fun r => r.cik == wAllIds.cik.getD "") = true
            then emptyStore.ciks.countP (fun r => r.cik == wAllIds.cik.getD "")
            else emptyStore.ciks.countP (fun r => r.cik == wAllIds.cik.getD "") + 1) :=
  ⟨(upsert_identifier_inplace emptyStore wAllIds 7).1,
   (upsert_identifier_inplace emptyStore wAllIds 7).2.1 rfl,
   (upsert_identifier_inplace emptyStore wAllIds 7).2.2.1 rfl,
   (upsert_identifier_inplace emptyStore wAllIds 7).2.2.2 rfl⟩

/-- Claim C6: end-to-end read-your-writes — after upserting the Apple
record into a fresh store (at any timestamp), the ticker lookup returns
its ISIN and CUSIP, the ISIN lookup returns its ticker, and the CUSIP
lookup returns the same Security identity as both other lookups. -/
theorem tickisinator_end_to_end (ts : Nat) :
    ((lookupByTicker (insertSecurity emptyStore aaplData ts).1 "AAPL" (some "NASDAQ")).map
        (fun r => (r.isin, r.cusip))
      = some (some "US0378331005", some "037833100"))
    ∧ ((lookupByIsin (insertSecurity emptyStore aaplData ts).1 "US0378331005").map
        (fun r => r.ticker)
      = some (some "AAPL"))
    ∧ ((lookupByCusip (insertSecurity emptyStore aaplData ts).1 "037833100").map (fun r => r.id)
      = (lookupByTicker (insertSecurity emptyStore aaplData ts).1 "AAPL" (some "NASDAQ")).map
          (fun r => r.id))
    ∧ ((lookupByCusip (insertSecurity emptyStore aaplData ts).1 "037833100").map (fun r => r.id)
      = (lookupByIsin (insertSecurity emptyStore aaplData ts).1 "US0378331005").map
          (fun r => r.id)) :=
  ⟨rfl, rfl, rfl, rfl⟩

/-- Claim C9: `lookupByTicker` with no exchange argument relaxes the
exchange constraint — under referential integrity of the ticker table it
returns a (non-null) result whenever some row for the ticker exists on
any exchange — and returns null (a value, not an error: the embedding is
a total function into `Option`) when no row matches the ticker. -/
theorem lookupByTicker_exchange_relaxed (db : Store) (t : String)
    (hri : ∀ r ∈ db.tickers, ∃ sr ∈ db.securities, sr.id = r.security_id) :
    ((∃ r ∈ db.tickers, r.ticker = t) → (lookupByTicker db t none).isSome = true)
    ∧ ((∀ r ∈ db.tickers, r.ticker ≠ t) → lookupByTicker db t none = none) := by
  constructor
  · rintro ⟨r, hr, ht⟩
    show (tickerResultRows db (fun r => r.ticker == t)).head?.isSome = true
    rw [List.head?_isSome]
    obtain ⟨sr, hsr, hid⟩ := hri r hr
    have hfilter : r ∈ db.tickers.filter (fun r => r.ticker == t) :=
      List.mem_filter.mpr ⟨hr, by simp [ht]⟩
    have hfind : ((db.securities.find? (fun x => x.id == r.security_id)).isSome) = true :=
      List.find?_isSome.mpr ⟨sr, hsr, by simp [hid]⟩
    obtain ⟨sr2, hsr2⟩ := Option.isSome_iff_exists.mp hfind
    unfold tickerResultRows
    intro hnil
    have hnone := List.forall_none_of_filterMap_eq_nil hnil r hfilter
    rw [hsr2] at hnone
    exact Option.noConfusion hnone
  · intro hnone
    show (tickerResultRows db (fun r => r.ticker == t)).head? = none
    unfold tickerResultRows
    rw [List.filter_eq_nil_iff.mpr (fun a ha => by simp [hnone a ha])]
    rfl

/-- Witness for C9 on a concrete store: a hit for AAPL without an
exchange, and a null result for an absent ticker. -/
theorem lookupByTicker_exchange_relaxed_witness :
    ((lookupByTicker baseDb "AAPL" none).isSome = true)
    ∧ (lookupByTicker baseDb "MSFT" none = none) :=
  ⟨(lookupByTicker_exchange_relaxed baseDb "AAPL" (by decide)).1 (by decide),
   (lookupByTicker_exchange_relaxed baseDb "MSFT" (by decide)).2 (by decide)⟩

/-! ## Lemmas about the FMP client -/

/-- Claim C10: `fetchTickerProfile` reports rate limiting as the
distinct `FmpRateLimitError` — for an HTTP 429 response, and for a
successful-status response whose body is a one-element array carrying a
"message" string that mentions the rate limit — and in neither case does
it return a security record (the result is an error, not an `.ok`). -/
theorem fmp_rate_limit_distinct (ticker apiKey : String) (r : FmpResponse)
    (hkey : (jsTrim apiKey == ([] : List Char)) = false) :
    (r.status = 429 →
        fetchTickerProfile ticker apiKey r = .error (.rateLimitError rateLimitMsg))
    ∧ (responseOk r = true →
        ∀ fields m, r.body = some (.jarr [.jobj fields]) →
          lookupJField fields "message" = some (.jstr m) →
          subOccurs "rate limit".data m.data = true →
          fetchTickerProfile ticker apiKey r = .error (.rateLimitError rateLimitMsg))
    ∧ (∀ m1 m2 c, FmpError.rateLimitError m1 ≠ FmpError.apiError m2 c) := by
  refine ⟨?_, ?_, ?_⟩
  · intro h429
    have hok : responseOk r = false := by
      simp [responseOk, h429]
    rw [fetchTickerProfile, if_neg (by simp [hkey]), if_pos hok, if_pos (by simp [h429])]
  · intro hok fields m hbody hfield hsub
    have hchk : jsonRateLimitCheck [Json.jobj fields] = true := by
      show (match lookupJField fields "message" with
        | some (.jstr m) => subOccurs "rate limit".data m.data
        | _ => false) = true
      rw [hfield]
      exact hsub
    rw [fetchTickerProfile, if_neg (by simp [hkey]), if_neg (by simp [hok]), hbody]
    simp [hchk]
  · intro m1 m2 c h
    exact FmpError.noConfusion h

/-- Witness for C10: a concrete 429 response and a concrete 200 response
whose body carries a rate-limit message. -/
theorem fmp_rate_limit_distinct_witness :
    ((jsTrim "key" == ([] : List Char)) = false)
    ∧ fetchTickerProfile "AAPL" "key" ⟨429, "TooMany", none⟩
        = .error (.rateLimitError rateLimitMsg)
    ∧ fetchTickerProfile "AAPL" "key"
        ⟨200, "OK", some (.jarr [.jobj [("message", .jstr "You hit the rate limit")]])⟩
        = .error (.rateLimitError rateLimitMsg) :=
  ⟨rfl,
   (fmp_rate_limit_distinct "AAPL" "key" ⟨429, "TooMany", none⟩ rfl).1 rfl,
   (fmp_rate_limit_distinct "AAPL" "key"
      ⟨200, "OK", some (.jarr [.jobj [("message", .jstr "You hit the rate limit")]])⟩ rfl).2.1
     rfl _ _ rfl rfl (by decide)⟩

end Tickisinator
